import Mathlib

/-!
# Verification of the WhatsApp menu chatbot core
Shallow embedding of `src/whatsapp-chatbot-backend/index.js`: the per-user
conversation state machine with inactivity expiry and human-handoff mode,
the conversation store, the retrying spreadsheet logging sink, and the
transport-event dispatch. JavaScript's in-place mutation of `Conversation`
objects and the global `conversations` Map become explicit state passing;
`setTimeout`/`clearTimeout` become a list of live timer entries together
with a fresh-id counter; the spreadsheet append becomes an oracle
`succeeds : Nat → Bool` saying whether the remote call on a given attempt
number succeeds.
-/

/-- The seven menu nodes a conversation's `state` field ranges over
(source: the string states `'main'`, `'info'`, `'pdrb'`, `'dummyMenu'`,
`'dummySubmenu1'`, `'produk'`, `'produk1'`, index.js lines 167-188). -/
inductive ConvState
  | main
  | info
  | pdrb
  | dummyMenu
  | dummySubmenu1
  | produk
  | produk1
deriving DecidableEq, Repr

/-- A conversation record (source: `class Conversation`, index.js lines 97-111).
`timeout` holds the id of the pending inactivity timer, if any. -/
structure Conversation where
  state : ConvState
  csActive : Bool
  timeout : Option Nat
deriving DecidableEq, Repr

/-- `new Conversation()` (index.js lines 98-102): state `'main'`,
`csActive = false`, no timer yet. -/
def Conversation.new : Conversation :=
  { state := ConvState.main, csActive := false, timeout := none }

/-- A live `setTimeout` handle: its id and the counterparty jid whose
inactivity it watches (the callback of index.js lines 106-109). -/
structure TimerEntry where
  id : Nat
  jid : String
deriving DecidableEq, Repr

/-- The timer part of the world: live timers plus a counter supplying
fresh timer ids. -/
structure TimerCtx where
  timers : List TimerEntry
  nextTimerId : Nat
deriving DecidableEq, Repr

/-- The global mutable state of the process: the `conversations` Map
(index.js line 114), modelled as an insertion-ordered association list,
plus the live timers. -/
structure World where
  conversations : List (String × Conversation)
  timers : List TimerEntry
  nextTimerId : Nat
deriving DecidableEq, Repr

/-- `conversations.get(jid)` — first entry with the given key. -/
def mapGet : List (String × Conversation) → String → Option Conversation
  | [], _ => none
  | p :: rest, jid => if p.1 = jid then some p.2 else mapGet rest jid

/-- `conversations.set(jid, c)` — replace in place, or append if absent. -/
def mapSet : List (String × Conversation) → String → Conversation →
    List (String × Conversation)
  | [], jid, c => [(jid, c)]
  | p :: rest, jid, c =>
    if p.1 = jid then (jid, c) :: rest else p :: mapSet rest jid c

/-- `conversations.delete(jid)` — remove every entry with the given key
(keys are unique, so this is the single entry when present). -/
def mapDelete : List (String × Conversation) → String → List (String × Conversation)
  | [], _ => []
  | p :: rest, jid =>
    if p.1 = jid then mapDelete rest jid else p :: mapDelete rest jid

/-- Observable effects of processing: an outbound transport send
(`sock.sendMessage`, with the final text) or a logging-sink append
(`appendChatLog(timestamp, from, message, senderType)`, timestamp omitted
as it never influences control flow). -/
inductive Event
  | send (jid : String) (text : String)
  | chatLog (jid : String) (text : String) (senderType : String)
deriving DecidableEq, Repr

/-- The fixed bot-attribution suffix (index.js line 123). -/
def botSignature : String := "\n\nchat digenerate oleh bot"

/-- `sendMessage(sock, jid, message, isBot)` (index.js lines 122-129):
appends the bot signature when `isBot`, then performs the transport send.
Failures of the transport send are caught and logged, so the event is the
only observable effect. -/
def sendMessage (jid message : String) (isBot : Bool) : Event :=
  Event.send jid (if isBot then message ++ botSignature else message)

/-- `formatMenu(title, items)` (index.js lines 77-83): title, colon,
then `1. item` lines, trailing whitespace trimmed. -/
def formatMenu (title : String) (items : List String) : String :=
  let body := String.join (items.enum.map
    (fun p => toString (p.1 + 1) ++ ". " ++ p.2 ++ "\n"))
  (title ++ ":\n" ++ body).trim

/-- `MENUS.main` (index.js line 87). -/
def MENUS.main : List String :=
  ["Info", "Chat dengan CS", "Akhiri percakapan", "Dummy Menu", "Produk"]

/-- `MENUS.info` (index.js line 88). -/
def MENUS.info : List String :=
  ["PDRB", "Kembali ke menu sebelumnya"]

/-- `MENUS.pdrb` (index.js line 89). -/
def MENUS.pdrb : List String :=
  ["Nilai PDRB sebesar 1 juta.", "Kembali ke menu sebelumnya"]

/-- `MENUS.dummyMenu` (index.js line 90). -/
def MENUS.dummyMenu : List String :=
  ["Dummy Submenu 1", "Kembali ke menu sebelumnya"]

/-- `MENUS.dummySubmenu1` (index.js line 91). -/
def MENUS.dummySubmenu1 : List String :=
  ["Kembali ke menu sebelumnya"]

/-- `MENUS.produk` (index.js line 92). -/
def MENUS.produk : List String :=
  ["Produk 1", "Produk 2", "Produk 3", "Kembali ke menu sebelumnya"]

/-- `MENUS.produk1` (index.js line 93). -/
def MENUS.produk1 : List String :=
  ["Detail Produk 1", "Kembali ke menu sebelumnya"]

/-- `Conversation.resetTimeout(sock, jid)` (index.js lines 104-110):
`clearTimeout` the pending timer if any, then `setTimeout` a fresh one and
remember its id. The fired callback itself is `fireInactivityTimer` below. -/
def Conversation.resetTimeout (conv : Conversation) (jid : String)
    (tc : TimerCtx) : Conversation × TimerCtx :=
  let cleared :=
    match conv.timeout with
    | some tid => tc.timers.filter (fun t => t.id ≠ tid)
    | none => tc.timers
  ({ conv with timeout := some tc.nextTimerId },
   { timers := cleared ++ [{ id := tc.nextTimerId, jid := jid }],
     nextTimerId := tc.nextTimerId + 1 })

/-- The fixed inactivity-expiry notice (index.js line 107). -/
def inactivityMessage : String :=
  "Percakapan diakhiri karena tidak ada jawaban selama 2 menit."

/-- The callback armed by `resetTimeout` (index.js lines 106-109): when the
timer fires it is no longer pending, `sendMessage(sock, jid, ..., true)` is
sent, and the conversation is deleted from the store. -/
def fireInactivityTimer (w : World) (t : TimerEntry) : World × List Event :=
  ({ conversations := mapDelete w.conversations t.jid,
     timers := w.timers.filter (fun t2 => t2.id ≠ t.id),
     nextTimerId := w.nextTimerId },
   [sendMessage t.jid inactivityMessage true])

/-- Result of one per-state menu handler: the (mutated) conversation, the
outbound events it produced, whether it deleted the conversation from the
store, and the timer state after the trailing `resetTimeout`. -/
structure HandlerResult where
  conv : Conversation
  events : List Event
  deleted : Bool
  tc : TimerCtx
deriving Repr

/-- The invalid-choice prefix shared by every handler's default branch. -/
def invalidPrefix : String := "Pilihan tidak valid. Silakan pilih menu:\n"

/-- `handleMainMenu` (index.js lines 198-225). -/
def handleMainMenu (jid messageText : String) (conv : Conversation)
    (tc : TimerCtx) : HandlerResult :=
  let (conv1, events, deleted) :=
    if messageText = "1" then
      ({ conv with state := ConvState.info },
       [sendMessage jid (formatMenu "Menu Info" MENUS.info) true], false)
    else if messageText = "2" then
      ({ conv with csActive := true },
       [sendMessage jid "mohon tunggu sebentar." true], false)
    else if messageText = "3" then
      (conv, [sendMessage jid "Percakapan diakhiri. Terima kasih." true], true)
    else if messageText = "4" then
      ({ conv with state := ConvState.dummyMenu },
       [sendMessage jid (formatMenu "Dummy Menu" MENUS.dummyMenu) true], false)
    else if messageText = "5" then
      ({ conv with state := ConvState.produk },
       [sendMessage jid (formatMenu "Produk" MENUS.produk) true], false)
    else
      (conv, [sendMessage jid (invalidPrefix ++ formatMenu "Menu" MENUS.main) true],
       false)
  let p := Conversation.resetTimeout conv1 jid tc
  { conv := p.1, events := events, deleted := deleted, tc := p.2 }

/-- `handleInfoMenu` (index.js lines 227-242). -/
def handleInfoMenu (jid messageText : String) (conv : Conversation)
    (tc : TimerCtx) : HandlerResult :=
  let (conv1, events) :=
    if messageText = "1" then
      ({ conv with state := ConvState.pdrb },
       [sendMessage jid (formatMenu "Menu PDRB" MENUS.pdrb) true])
    else if messageText = "2" then
      ({ conv with state := ConvState.main },
       [sendMessage jid (formatMenu "Menu" MENUS.main) true])
    else
      (conv, [sendMessage jid (invalidPrefix ++ formatMenu "Menu Info" MENUS.info) true])
  let p := Conversation.resetTimeout conv1 jid tc
  { conv := p.1, events := events, deleted := false, tc := p.2 }

/-- `handlePdrbMenu` (index.js lines 244-255). -/
def handlePdrbMenu (jid messageText : String) (conv : Conversation)
    (tc : TimerCtx) : HandlerResult :=
  let (conv1, events) :=
    if messageText = "1" then
      ({ conv with state := ConvState.info },
       [sendMessage jid (formatMenu "Menu Info" MENUS.info) true])
    else
      (conv, [sendMessage jid (invalidPrefix ++ formatMenu "Menu PDRB" MENUS.pdrb) true])
  let p := Conversation.resetTimeout conv1 jid tc
  { conv := p.1, events := events, deleted := false, tc := p.2 }

/-- `handleDummyMenu` (index.js lines 257-272). -/
def handleDummyMenu (jid messageText : String) (conv : Conversation)
    (tc : TimerCtx) : HandlerResult :=
  let (conv1, events) :=
    if messageText = "1" then
      ({ conv with state := ConvState.dummySubmenu1 },
       [sendMessage jid (formatMenu "Dummy Submenu 1" MENUS.dummySubmenu1) true])
    else if messageText = "2" then
      ({ conv with state := ConvState.main },
       [sendMessage jid (formatMenu "Menu" MENUS.main) true])
    else
      (conv,
       [sendMessage jid (invalidPrefix ++ formatMenu "Dummy Menu" MENUS.dummyMenu) true])
  let p := Conversation.resetTimeout conv1 jid tc
  { conv := p.1, events := events, deleted := false, tc := p.2 }

/-- `handleDummySubmenu1` (index.js lines 274-285). -/
def handleDummySubmenu1 (jid messageText : String) (conv : Conversation)
    (tc : TimerCtx) : HandlerResult :=
  let (conv1, events) :=
    if messageText = "1" then
      ({ conv with state := ConvState.dummyMenu },
       [sendMessage jid (formatMenu "Dummy Menu" MENUS.dummyMenu) true])
    else
      (conv,
       [sendMessage jid
         (invalidPrefix ++ formatMenu "Dummy Submenu 1" MENUS.dummySubmenu1) true])
  let p := Conversation.resetTimeout conv1 jid tc
  { conv := p.1, events := events, deleted := false, tc := p.2 }

/-- `handleProdukMenu` (index.js lines 287-307). Options 2 and 3 stay in
`produk` and re-render the catalog. -/
def handleProdukMenu (jid messageText : String) (conv : Conversation)
    (tc : TimerCtx) : HandlerResult :=
  let (conv1, events) :=
    if messageText = "1" then
      ({ conv with state := ConvState.produk1 },
       [sendMessage jid (formatMenu "Detail Produk 1" MENUS.produk1) true])
    else if messageText = "2" ∨ messageText = "3" then
      (conv, [sendMessage jid (formatMenu "Produk" MENUS.produk) true])
    else if messageText = "4" then
      ({ conv with state := ConvState.main },
       [sendMessage jid (formatMenu "Menu" MENUS.main) true])
    else
      (conv, [sendMessage jid (invalidPrefix ++ formatMenu "Produk" MENUS.produk) true])
  let p := Conversation.resetTimeout conv1 jid tc
  { conv := p.1, events := events, deleted := false, tc := p.2 }

/-- `handleProduk1Menu` (index.js lines 309-320). -/
def handleProduk1Menu (jid messageText : String) (conv : Conversation)
    (tc : TimerCtx) : HandlerResult :=
  let (conv1, events) :=
    if messageText = "1" then
      ({ conv with state := ConvState.produk },
       [sendMessage jid (formatMenu "Produk" MENUS.produk) true])
    else
      (conv,
       [sendMessage jid (invalidPrefix ++ formatMenu "Detail Produk 1" MENUS.produk1) true])
  let p := Conversation.resetTimeout conv1 jid tc
  { conv := p.1, events := events, deleted := false, tc := p.2 }

/-- The `switch (conv.state)` dispatch of `handleMessage`
(index.js lines 167-194). The `default` arm of the source is unreachable
here: the enumeration is exactly the seven reachable state strings. -/
def dispatchState (jid messageText : String) (conv : Conversation)
    (tc : TimerCtx) : HandlerResult :=
  match conv.state with
  | ConvState.main => handleMainMenu jid messageText conv tc
  | ConvState.info => handleInfoMenu jid messageText conv tc
  | ConvState.pdrb => handlePdrbMenu jid messageText conv tc
  | ConvState.dummyMenu => handleDummyMenu jid messageText conv tc
  | ConvState.dummySubmenu1 => handleDummySubmenu1 jid messageText conv tc
  | ConvState.produk => handleProdukMenu jid messageText conv tc
  | ConvState.produk1 => handleProduk1Menu jid messageText conv tc

/-- Message key of an inbound transport event (`msg.key`). -/
structure MsgKey where
  remoteJid : String
  fromMe : Bool
deriving DecidableEq, Repr

/-- Inbound payload (`msg.message`): the plain `conversation` text and the
`extendedTextMessage.text`, each possibly absent. -/
structure MsgContent where
  conversation : Option String
  extendedTextMessage : Option String
deriving DecidableEq, Repr

/-- An inbound transport message (`msg`). -/
structure Msg where
  message : Option MsgContent
  key : MsgKey
deriving DecidableEq, Repr

/-- JavaScript string truthiness: `undefined` and `""` are falsy. -/
def jsStr : Option String → String
  | none => ""
  | some s => s

/-- `msg.message.conversation || (msg.message.extendedTextMessage &&
msg.message.extendedTextMessage.text) || ""` (index.js line 136), with
JavaScript short-circuit semantics on falsy strings. -/
def extractText (mc : MsgContent) : String :=
  if jsStr mc.conversation ≠ "" then jsStr mc.conversation
  else jsStr mc.extendedTextMessage

/-- Body of `handleMessage` after the guard, given the jid and extracted
text (index.js lines 138-195): log the user message, create-and-welcome on
first contact, intercept the handoff mode, otherwise dispatch on state and
mirror the handler's store mutation. -/
def handleInbound (w : World) (jid messageText : String) : World × List Event :=
  let logEv := Event.chatLog jid messageText "user"
  match mapGet w.conversations jid with
  | none =>
    let p := Conversation.resetTimeout Conversation.new jid
      { timers := w.timers, nextTimerId := w.nextTimerId }
    ({ conversations := mapSet w.conversations jid p.1,
       timers := p.2.timers, nextTimerId := p.2.nextTimerId },
     [logEv,
      sendMessage jid ("Halo! Selamat datang.\n" ++ formatMenu "Menu" MENUS.main) true])
  | some conv =>
    if conv.csActive then
      if messageText.toLower = "terima kasih" then
        let p := Conversation.resetTimeout
          { conv with csActive := false, state := ConvState.main } jid
          { timers := w.timers, nextTimerId := w.nextTimerId }
        ({ conversations := mapSet w.conversations jid p.1,
           timers := p.2.timers, nextTimerId := p.2.nextTimerId },
         [logEv, sendMessage jid "Percakapan kembali diambil alih oleh bot." true])
      else
        let p := Conversation.resetTimeout conv jid
          { timers := w.timers, nextTimerId := w.nextTimerId }
        ({ conversations := mapSet w.conversations jid p.1,
           timers := p.2.timers, nextTimerId := p.2.nextTimerId },
         [logEv])
    else
      let r := dispatchState jid messageText conv
        { timers := w.timers, nextTimerId := w.nextTimerId }
      ({ conversations :=
           if r.deleted then mapDelete w.conversations jid
           else mapSet w.conversations jid r.conv,
         timers := r.tc.timers, nextTimerId := r.tc.nextTimerId },
       logEv :: r.events)

/-- `handleMessage(sock, msg)` (index.js lines 132-195): drop events with
no payload or sent by ourselves, then process the extracted text. -/
def handleMessage (w : World) (msg : Msg) : World × List Event :=
  match msg.message with
  | none => (w, [])
  | some content =>
    if msg.key.fromMe then (w, [])
    else handleInbound w msg.key.remoteJid (extractText content)

/-- The `messages.upsert` listener (index.js lines 359-363): ignore batches
without messages or whose type is not `'notify'`; process only
`m.messages[0]`. A `'notify'` batch with an empty array throws before any
observable effect in the source, so it too yields no state change or event. -/
def onMessagesUpsert (w : World) (type_ : String) (messages : Option (List Msg)) :
    World × List Event :=
  match messages with
  | none => (w, [])
  | some msgs =>
    if type_ ≠ "notify" then (w, [])
    else
      match msgs with
      | [] => (w, [])
      | m :: _ => handleMessage w m

/-- Outcome of one `appendChatLog` call: the attempt numbers actually made,
the backoff waits (in milliseconds) slept between consecutive attempts, and
whether some attempt succeeded. The function returns normally for every
oracle — the `catch` swallows each failure, so nothing is ever raised to
the caller. -/
structure AppendOutcome where
  attempts : List Nat
  waits : List Nat
  success : Bool
deriving DecidableEq, Repr

/-- The remote `sheets.spreadsheets.values.append` call, abstracted by an
oracle giving each attempt's fate. -/
def remoteAppend (succeeds : Nat → Bool) (attempt : Nat) : Except String Unit :=
  if succeeds attempt then Except.ok () else Except.error "append failed"

/-- The retry loop of `appendChatLog` (index.js lines 56-73): `break` on
success; on failure, stop after the last allowed attempt, otherwise sleep
`1000 * attempt` ms and try again. `fuel` counts the loop iterations still
allowed (`retries - attempt + 1` at entry). -/
def appendLoop (succeeds : Nat → Bool) (retries : Nat) :
    Nat → Nat → AppendOutcome
  | 0, _ => { attempts := [], waits := [], success := false }
  | fuel + 1, attempt =>
    match remoteAppend succeeds attempt with
    | Except.ok _ => { attempts := [attempt], waits := [], success := true }
    | Except.error _ =>
      if retries ≤ attempt then { attempts := [attempt], waits := [], success := false }
      else
        let rest := appendLoop succeeds retries fuel (attempt + 1)
        { attempts := attempt :: rest.attempts,
          waits := 1000 * attempt :: rest.waits,
          success := rest.success }

/-- `appendChatLog(timestamp, from, message, senderType, retries)`
(index.js lines 52-74): no attempt at all when the sheets client was never
initialized (`if (!sheets) return`), otherwise the retry loop starting at
attempt 1. The row content never influences control flow and is omitted. -/
def appendChatLog (sheetsInitialized : Bool) (succeeds : Nat → Bool)
    (retries : Nat) : AppendOutcome :=
  if sheetsInitialized then appendLoop succeeds retries retries 1
  else { attempts := [], waits := [], success := false }

/-- The option strings a state's handler recognizes (the non-default
`case` labels of index.js lines 198-320). -/
def recognizedInputs : ConvState → List String
  | ConvState.main => ["1", "2", "3", "4", "5"]
  | ConvState.info => ["1", "2"]
  | ConvState.pdrb => ["1"]
  | ConvState.dummyMenu => ["1", "2"]
  | ConvState.dummySubmenu1 => ["1"]
  | ConvState.produk => ["1", "2", "3", "4"]
  | ConvState.produk1 => ["1"]

/-- The rendering of a state's own menu, as each handler's default branch
re-renders it (title and item list per index.js lines 198-320). -/
def currentMenuRender : ConvState → String
  | ConvState.main => formatMenu "Menu" MENUS.main
  | ConvState.info => formatMenu "Menu Info" MENUS.info
  | ConvState.pdrb => formatMenu "Menu PDRB" MENUS.pdrb
  | ConvState.dummyMenu => formatMenu "Dummy Menu" MENUS.dummyMenu
  | ConvState.dummySubmenu1 => formatMenu "Dummy Submenu 1" MENUS.dummySubmenu1
  | ConvState.produk => formatMenu "Produk" MENUS.produk
  | ConvState.produk1 => formatMenu "Detail Produk 1" MENUS.produk1

/-- A plain-text inbound message from a counterparty (not from ourselves). -/
def mkTextMsg (jid text : String) : Msg :=
  { message := some { conversation := some text, extendedTextMessage := none },
    key := { remoteJid := jid, fromMe := false } }

/-- State of the stored conversation for a jid after processing. -/
def stateAfter (w : World) (jid : String) : Option ConvState :=
  (mapGet w.conversations jid).map Conversation.state

/-- Handoff flag of the stored conversation for a jid after processing. -/
def handoffAfter (w : World) (jid : String) : Option Bool :=
  (mapGet w.conversations jid).map Conversation.csActive

/-- Is the event an outbound transport send? -/
def Event.isSend : Event → Bool
  | Event.send _ _ => true
  | Event.chatLog _ _ _ => false

/-- Is the event a logging-sink append with the given sender kind? -/
def Event.isLogKind (kind : String) : Event → Bool
  | Event.send _ _ => false
  | Event.chatLog _ _ s => s = kind

lemma mapGet_mapSet_self (m : List (String × Conversation)) (jid : String)
    (c : Conversation) : mapGet (mapSet m jid c) jid = some c := by
  induction m with
  | nil => simp [mapGet, mapSet]
  | cons p rest ih =>
    by_cases h : p.1 = jid
    · simp [mapGet, mapSet, h]
    · simp [mapGet, mapSet, h, ih]

lemma mapGet_mapDelete_self (m : List (String × Conversation)) (jid : String) :
    mapGet (mapDelete m jid) jid = none := by
  induction m with
  | nil => simp [mapGet, mapDelete]
  | cons p rest ih =>
    by_cases h : p.1 = jid
    · simp [mapDelete, h, ih]
    · simp [mapGet, mapDelete, h, ih]

lemma extractText_plain (t : String) :
    extractText { conversation := some t, extendedTextMessage := none } = t := by
  by_cases h : t = "" <;> simp [extractText, jsStr, h]

lemma handleMessage_mkTextMsg (w : World) (jid text : String) :
    handleMessage w (mkTextMsg jid text) = handleInbound w jid text := by
  simp [handleMessage, mkTextMsg, extractText_plain]

lemma dispatch_invalid (jid messageText : String) (conv : Conversation)
    (tc : TimerCtx) (hmem : messageText ∉ recognizedInputs conv.state) :
    dispatchState jid messageText conv tc =
      { conv := (Conversation.resetTimeout conv jid tc).1,
        events := [sendMessage jid (invalidPrefix ++ currentMenuRender conv.state) true],
        deleted := false,
        tc := (Conversation.resetTimeout conv jid tc).2 } := by
  rcases conv with ⟨st, cs, tm⟩
  cases st <;>
    simp only [recognizedInputs, List.mem_cons, List.not_mem_nil, or_false, not_or] at hmem <;>
    simp [dispatchState, handleMainMenu, handleInfoMenu, handlePdrbMenu, handleDummyMenu,
      handleDummySubmenu1, handleProdukMenu, handleProduk1Menu, currentMenuRender, hmem]

/-- An inbound transport message carrying the given payload from the
given counterparty (not from ourselves). -/
def inboundMsg (jid : String) (content : MsgContent) : Msg :=
  { message := some content, key := { remoteJid := jid, fromMe := false } }

/-- Every per-state handler emits exactly one outbound send (and nothing
else): each branch of each `switch` performs a single `sendMessage`. -/
lemma dispatch_single_send (jid text : String) (conv : Conversation) (tc : TimerCtx) :
    ∃ t, (dispatchState jid text conv tc).events = [Event.send jid t] := by
  rcases conv with ⟨st, cs, tm⟩
  cases st <;>
    (simp only [dispatchState, handleMainMenu, handleInfoMenu, handlePdrbMenu,
      handleDummyMenu, handleDummySubmenu1, handleProdukMenu, handleProduk1Menu]
     split_ifs <;> exact ⟨_, rfl⟩)

/-- Processing any inbound text appends exactly one `user` row to the
logging sink and never appends a `bot` row. -/
lemma handleInbound_logs (w : World) (jid text : String) :
    ((handleInbound w jid text).2.filter (Event.isLogKind "user")) =
      [Event.chatLog jid text "user"] ∧
    ((handleInbound w jid text).2.filter (Event.isLogKind "bot")) = [] := by
  unfold handleInbound
  cases hget : mapGet w.conversations jid with
  | none => simp [Event.isLogKind, sendMessage]
  | some conv =>
    by_cases hcs : conv.csActive
    · by_cases ht : text.toLower = "terima kasih" <;>
        simp [hcs, ht, Event.isLogKind, sendMessage]
    · obtain ⟨t, hev⟩ := dispatch_single_send jid text conv
        { timers := w.timers, nextTimerId := w.nextTimerId }
      simp [hcs, hev, Event.isLogKind]

/-- Example world: one known counterparty sitting in the Main menu with
handoff inactive and a pending inactivity timer. -/
def wMain : World :=
  { conversations := [("628@s", { state := ConvState.main, csActive := false, timeout := some 0 })],
    timers := [{ id := 0, jid := "628@s" }],
    nextTimerId := 1 }

/-- Example world: one known counterparty with the human-handoff flag set. -/
def wHandoff : World :=
  { conversations := [("628@s", { state := ConvState.produk, csActive := true, timeout := some 0 })],
    timers := [{ id := 0, jid := "628@s" }],
    nextTimerId := 1 }

/-- Example world: no conversations at all. -/
def wEmpty : World := { conversations := [], timers := [], nextTimerId := 0 }

/-- Claim C1: for every conversation state S among the seven menu nodes and
every inbound text outside S's recognized option set (handoff inactive),
the reply is the single invalid-choice message re-rendering S's own menu,
and the stored conversation's state (and handoff flag) is unchanged. -/
theorem claim1_invalid_choice (w : World) (jid text : String) (conv : Conversation)
    (hget : mapGet w.conversations jid = some conv)
    (hcs : conv.csActive = false)
    (hmem : text ∉ recognizedInputs conv.state) :
    (handleMessage w (mkTextMsg jid text)).2 =
      [Event.chatLog jid text "user",
       sendMessage jid (invalidPrefix ++ currentMenuRender conv.state) true] ∧
    stateAfter (handleMessage w (mkTextMsg jid text)).1 jid = some conv.state ∧
    handoffAfter (handleMessage w (mkTextMsg jid text)).1 jid = some conv.csActive := by
  rw [handleMessage_mkTextMsg]
  have hd := dispatch_invalid jid text conv { timers := w.timers, nextTimerId := w.nextTimerId } hmem
  simp [handleInbound, hget, hcs, hd, stateAfter, handoffAfter, mapGet_mapSet_self,
    Conversation.resetTimeout]

/-- Witness for C1: input `"9"` while in Main reprompts the Main menu and
leaves the state at Main. -/
theorem claim1_invalid_choice_witness :
    (handleMessage wMain (mkTextMsg "628@s" "9")).2 =
      [Event.chatLog "628@s" "9" "user",
       sendMessage "628@s" (invalidPrefix ++ currentMenuRender ConvState.main) true] ∧
    stateAfter (handleMessage wMain (mkTextMsg "628@s" "9")).1 "628@s" = some ConvState.main ∧
    handoffAfter (handleMessage wMain (mkTextMsg "628@s" "9")).1 "628@s" = some false :=
  claim1_invalid_choice wMain "628@s" "9"
    { state := ConvState.main, csActive := false, timeout := some 0 }
    (by decide) rfl (by decide)

/-- Claim C2: in Main with handoff inactive, `1` goes to Info, `2` sets the
handoff flag with state staying Main and a please-wait reply, `3` removes
the conversation from the store, `4` goes to DummyMenu, `5` goes to Produk,
and anything else reprompts the Main menu with state unchanged. -/
theorem claim2_main_menu_transitions (w : World) (jid : String) (conv : Conversation)
    (hget : mapGet w.conversations jid = some conv)
    (hcs : conv.csActive = false)
    (hst : conv.state = ConvState.main) :
    stateAfter (handleInbound w jid "1").1 jid = some ConvState.info ∧
    (stateAfter (handleInbound w jid "2").1 jid = some ConvState.main ∧
      handoffAfter (handleInbound w jid "2").1 jid = some true ∧
      (handleInbound w jid "2").2 =
        [Event.chatLog jid "2" "user", sendMessage jid "mohon tunggu sebentar." true]) ∧
    mapGet (handleInbound w jid "3").1.conversations jid = none ∧
    stateAfter (handleInbound w jid "4").1 jid = some ConvState.dummyMenu ∧
    stateAfter (handleInbound w jid "5").1 jid = some ConvState.produk ∧
    (∀ text, text ∉ recognizedInputs ConvState.main →
      (handleInbound w jid text).2 =
        [Event.chatLog jid text "user",
         sendMessage jid (invalidPrefix ++ formatMenu "Menu" MENUS.main) true] ∧
      stateAfter (handleInbound w jid text).1 jid = some ConvState.main) := by
  obtain ⟨st, cs, tm⟩ := conv
  simp only at hst hcs
  subst hst
  subst hcs
  refine ⟨?_, ⟨?_, ?_, ?_⟩, ?_, ?_, ?_, ?_⟩
  · simp [handleInbound, hget, dispatchState, handleMainMenu, Conversation.resetTimeout,
      stateAfter, mapGet_mapSet_self]
  · simp [handleInbound, hget, dispatchState, handleMainMenu, Conversation.resetTimeout,
      stateAfter, mapGet_mapSet_self]
  · simp [handleInbound, hget, dispatchState, handleMainMenu, Conversation.resetTimeout,
      handoffAfter, mapGet_mapSet_self]
  · simp [handleInbound, hget, dispatchState, handleMainMenu, Conversation.resetTimeout]
  · simp [handleInbound, hget, dispatchState, handleMainMenu, Conversation.resetTimeout,
      mapGet_mapDelete_self]
  · simp [handleInbound, hget, dispatchState, handleMainMenu, Conversation.resetTimeout,
      stateAfter, mapGet_mapSet_self]
  · simp [handleInbound, hget, dispatchState, handleMainMenu, Conversation.resetTimeout,
      stateAfter, mapGet_mapSet_self]
  · intro text hmem
    have hd := dispatch_invalid jid text ⟨ConvState.main, false, tm⟩
      { timers := w.timers, nextTimerId := w.nextTimerId } hmem
    constructor
    · simp [handleInbound, hget, hd, currentMenuRender]
    · simp [handleInbound, hget, hd, stateAfter, mapGet_mapSet_self,
        Conversation.resetTimeout]

/-- Witness for C2: option `1` navigates to Info and option `3` removes
the conversation from the store. -/
theorem claim2_main_menu_transitions_witness :
    stateAfter (handleInbound wMain "628@s" "1").1 "628@s" = some ConvState.info ∧
    mapGet (handleInbound wMain "628@s" "3").1.conversations "628@s" = none := by
  have h := claim2_main_menu_transitions wMain "628@s"
    { state := ConvState.main, csActive := false, timeout := some 0 }
    (by decide) rfl rfl
  exact ⟨h.1, h.2.2.1⟩

/-- Counterexample to claim C3: processing input `"9"` in Main produces one
outbound reply but zero logging-sink appends with sender-kind `bot` — the
outbound path (`sendMessage`) never calls `appendChatLog`, so the claimed
one-append-per-outbound-reply is false. -/
theorem claim3_counterexample :
    ((handleInbound wMain "628@s" "9").2.filter Event.isSend).length = 1 ∧
    ((handleInbound wMain "628@s" "9").2.filter (Event.isLogKind "bot")).length = 0 := by
  decide

/-- Claim C3 (amended): for every processed inbound message, exactly one
logging-sink append with sender-kind `user` is made, carrying the inbound
text; no append with sender-kind `bot` is ever made — outbound replies are
not logged. -/
theorem claim3_user_logged_once_no_bot_log (w : World) (content : MsgContent)
    (jid : String) :
    ((handleMessage w (inboundMsg jid content)).2.filter (Event.isLogKind "user")) =
      [Event.chatLog jid (extractText content) "user"] ∧
    ((handleMessage w (inboundMsg jid content)).2.filter (Event.isLogKind "bot")) = [] := by
  simpa [handleMessage, inboundMsg] using handleInbound_logs w jid (extractText content)

/-- Counterexample to claim C4: when the inactivity timer fires, the fixed
notice is sent with the bot-attribution suffix appended (the callback calls
`sendMessage(..., true)`), not via a non-suffixed path. -/
theorem claim4_counterexample :
    (fireInactivityTimer wMain { id := 0, jid := "628@s" }).2 =
      [Event.send "628@s" (inactivityMessage ++ botSignature)] ∧
    inactivityMessage ++ botSignature ≠ inactivityMessage := by
  decide

/-- Claim C4 (amended): when the inactivity timer fires, the fixed notice
is sent with the bot-attribution suffix appended, and the conversation is
removed from the store. -/
theorem claim4_expiry_suffixed_and_removed (w : World) (t : TimerEntry) :
    (fireInactivityTimer w t).2 =
      [Event.send t.jid (inactivityMessage ++ botSignature)] ∧
    mapGet (fireInactivityTimer w t).1.conversations t.jid = none := by
  simp [fireInactivityTimer, sendMessage, mapGet_mapDelete_self]

/-- Claim C5 at its failing input: a conversation in Main with a pending
timer receives `"3"`; the conversation is removed from the store, yet a
freshly scheduled inactivity timer for that counterparty is still live —
`handleMainMenu` calls `resetTimeout` after `conversations.delete`, so
removal does not cancel the timer. The claim (and the spec's stated
cancellation invariant) says no live timer should remain. -/
theorem claim5_terminate_leaves_live_timer :
    mapGet (handleInbound wMain "628@s" "3").1.conversations "628@s" = none ∧
    ({ id := 1, jid := "628@s" } : TimerEntry) ∈ (handleInbound wMain "628@s" "3").1.timers := by
  decide

/-- Claim C6: `appendChatLog` attempts the remote append at most 3 times,
stopping at the first success; between consecutive failed attempts it waits
`attempt * 1000` ms (linear backoff, no wait after the final attempt);
exhausting retries yields a normal return (the `catch` swallows every
failure, so nothing is raised to the message-send path); and if the sheets
client was never initialized no attempt is made at all. -/
theorem claim6_append_retry_policy (succeeds : Nat → Bool) :
    appendChatLog false succeeds 3 = { attempts := [], waits := [], success := false } ∧
    (appendChatLog true succeeds 3).attempts =
      (if succeeds 1 = true then [1] else if succeeds 2 = true then [1, 2] else [1, 2, 3]) ∧
    (appendChatLog true succeeds 3).waits =
      (if succeeds 1 = true then [] else
       if succeeds 2 = true then [1000 * 1] else [1000 * 1, 1000 * 2]) ∧
    (appendChatLog true succeeds 3).success = (succeeds 1 || succeeds 2 || succeeds 3) ∧
    (appendChatLog true succeeds 3).attempts.length ≤ 3 := by
  cases h1 : succeeds 1 <;> cases h2 : succeeds 2 <;> cases h3 : succeeds 3 <;>
    simp [appendChatLog, appendLoop, remoteAppend, h1, h2, h3]

/-- Claim C7: with the handoff flag set, no menu reply is generated for any
text other than the case-insensitive phrase `terima kasih`; on that phrase
the flag clears, state resets to Main and the bot-resumed message is sent;
in both cases a fresh inactivity timer is scheduled. -/
theorem claim7_handoff_gate (w : World) (jid text : String) (conv : Conversation)
    (hget : mapGet w.conversations jid = some conv)
    (hcs : conv.csActive = true) :
    (if text.toLower = "terima kasih" then
      (handleInbound w jid text).2 =
        [Event.chatLog jid text "user",
         sendMessage jid "Percakapan kembali diambil alih oleh bot." true] ∧
      stateAfter (handleInbound w jid text).1 jid = some ConvState.main ∧
      handoffAfter (handleInbound w jid text).1 jid = some false
    else
      (handleInbound w jid text).2 = [Event.chatLog jid text "user"]) ∧
    ({ id := w.nextTimerId, jid := jid } : TimerEntry) ∈ (handleInbound w jid text).1.timers ∧
    (handleInbound w jid text).1.nextTimerId = w.nextTimerId + 1 := by
  obtain ⟨st, cs, tm⟩ := conv
  simp only at hcs
  subst hcs
  by_cases ht : text.toLower = "terima kasih" <;>
    simp [handleInbound, hget, ht, Conversation.resetTimeout, stateAfter, handoffAfter,
      mapGet_mapSet_self]

/-- Witness for C7: the mixed-case phrase `Terima Kasih` ends the handoff,
resets state to Main and schedules a fresh timer. -/
theorem claim7_handoff_gate_witness :
    (if ("Terima Kasih" : String).toLower = "terima kasih" then
      (handleInbound wHandoff "628@s" "Terima Kasih").2 =
        [Event.chatLog "628@s" "Terima Kasih" "user",
         sendMessage "628@s" "Percakapan kembali diambil alih oleh bot." true] ∧
      stateAfter (handleInbound wHandoff "628@s" "Terima Kasih").1 "628@s" =
        some ConvState.main ∧
      handoffAfter (handleInbound wHandoff "628@s" "Terima Kasih").1 "628@s" = some false
    else
      (handleInbound wHandoff "628@s" "Terima Kasih").2 =
        [Event.chatLog "628@s" "Terima Kasih" "user"]) ∧
    ({ id := wHandoff.nextTimerId, jid := "628@s" } : TimerEntry) ∈
      (handleInbound wHandoff "628@s" "Terima Kasih").1.timers ∧
    (handleInbound wHandoff "628@s" "Terima Kasih").1.nextTimerId = wHandoff.nextTimerId + 1 :=
  claim7_handoff_gate wHandoff "628@s" "Terima Kasih"
    { state := ConvState.produk, csActive := true, timeout := some 0 }
    (by decide) rfl

/-- Claim C8: the first inbound message from an unseen counterparty creates
a conversation with state Main and handoff false; the events are exactly the
user log and one outbound send whose text is the welcome greeting followed
by the rendered Main menu — no other reply. -/
theorem claim8_first_contact (w : World) (jid text : String)
    (hget : mapGet w.conversations jid = none) :
    (handleInbound w jid text).2 =
      [Event.chatLog jid text "user",
       sendMessage jid ("Halo! Selamat datang.\n" ++ formatMenu "Menu" MENUS.main) true] ∧
    stateAfter (handleInbound w jid text).1 jid = some ConvState.main ∧
    handoffAfter (handleInbound w jid text).1 jid = some false := by
  simp [handleInbound, hget, Conversation.new, Conversation.resetTimeout, stateAfter,
    handoffAfter, mapGet_mapSet_self]

/-- Witness for C8: first contact on an empty store. -/
theorem claim8_first_contact_witness :
    (handleInbound wEmpty "628@s" "halo").2 =
      [Event.chatLog "628@s" "halo" "user",
       sendMessage "628@s" ("Halo! Selamat datang.\n" ++ formatMenu "Menu" MENUS.main) true] ∧
    stateAfter (handleInbound wEmpty "628@s" "halo").1 "628@s" = some ConvState.main ∧
    handoffAfter (handleInbound wEmpty "628@s" "halo").1 "628@s" = some false :=
  claim8_first_contact wEmpty "628@s" "halo" rfl

/-- Claim C9: from Main (handoff inactive), navigating `1` into Info and
then `2` back returns the stored conversation to state Main with the
handoff flag unchanged. -/
theorem claim9_round_trip (w : World) (jid : String) (conv : Conversation)
    (hget : mapGet w.conversations jid = some conv)
    (hcs : conv.csActive = false)
    (hst : conv.state = ConvState.main) :
    stateAfter (handleInbound (handleInbound w jid "1").1 jid "2").1 jid =
      some ConvState.main ∧
    handoffAfter (handleInbound (handleInbound w jid "1").1 jid "2").1 jid =
      some conv.csActive := by
  obtain ⟨st, cs, tm⟩ := conv
  simp only at hst hcs
  subst hst
  subst hcs
  have h1 : mapGet (handleInbound w jid "1").1.conversations jid =
      some { state := ConvState.info, csActive := false, timeout := some w.nextTimerId } := by
    simp [handleInbound, hget, dispatchState, handleMainMenu, Conversation.resetTimeout,
      mapGet_mapSet_self]
  generalize hg : (handleInbound w jid "1").1 = w1 at h1 ⊢
  simp [handleInbound, h1, dispatchState, handleInfoMenu, Conversation.resetTimeout,
    stateAfter, handoffAfter, mapGet_mapSet_self]

/-- Witness for C9: the round trip on a concrete Main-state conversation. -/
theorem claim9_round_trip_witness :
    stateAfter (handleInbound (handleInbound wMain "628@s" "1").1 "628@s" "2").1 "628@s" =
      some ConvState.main ∧
    handoffAfter (handleInbound (handleInbound wMain "628@s" "1").1 "628@s" "2").1 "628@s" =
      some false :=
  claim9_round_trip wMain "628@s"
    { state := ConvState.main, csActive := false, timeout := some 0 }
    (by decide) rfl rfl

/-- Claim C10: a `notify` batch with one or more messages is processed
exactly as its first message alone — the remaining messages contribute no
log, no state change and no reply, whatever they are. -/
theorem claim10_only_first_processed (w : World) (m : Msg) (rest : List Msg) :
    onMessagesUpsert w "notify" (some (m :: rest)) = handleMessage w m := by
  simp [onMessagesUpsert]
